import Mathlib

/-!
Shallow embedding of the GitSync webhook server (src/server.py together with
src/maintenance.py) and proofs about the claims of its specification.

Conventions of the embedding:
* Python `None` for an optional string field is `Option.none`; a JSON object
  field that may be missing is wrapped in one more `Option` layer when the code
  distinguishes key absence from a null value.
* Database tables are association lists; each SQL insert/delete is modelled as
  the corresponding pure list operation.
* External I/O (the GitHub compare API, the Gemini summarizer, the Telegram
  transport, wall-clock time) enters as explicit parameters: `CompareApi` is
  the observable outcome of the one HTTP call `try_compare_api_with_chat_token`
  makes, `ai` is the summarizer, and a sent Telegram message is recorded as a
  `TgMessage` holding the target chat and the body text handed to the sender.
  Transport-side formatting (header lines, tag cleanup) is outside the model.
* Floats of the scoring path are modelled as rationals.
-/

namespace GitSync

/-- Python truthiness of an optional string (None and the empty string are falsy). -/
def optTruthy : Option String → Bool
  | none => false
  | some s => s ≠ ""

/-- Python str() applied to an optional string; str(None) is the literal "None". -/
def pyStr : Option String → String
  | none => "None"
  | some s => s

/-- Python str() of an optional integer field interpolated into a message. -/
def pyStrNat : Option Nat → String
  | none => "None"
  | some n => toString n

/-- Python str.startswith, stated over the underlying character lists. -/
def py_startswith (s p : String) : Bool :=
  p.data.isPrefixOf s.data

/-- Python str.lower (the payloads only carry ASCII), over the character list. -/
def py_lower (s : String) : String :=
  ⟨s.data.map Char.toLower⟩

/-- Python str.strip applied to the summarizer output, over the character list. -/
def py_strip (s : String) : String :=
  ⟨((s.data.dropWhile Char.isWhitespace).reverse.dropWhile Char.isWhitespace).reverse⟩

/-- The per-character expansion of Python html.escape with quote=True.  The
single left-to-right pass is equivalent to the escape-ampersand-first chain of
replace calls the library performs. -/
def escapeChar (c : Char) : List Char :=
  if c = '&' then "&amp;".data
  else if c = '<' then "&lt;".data
  else if c = '>' then "&gt;".data
  else if c = '"' then "&quot;".data
  else if c = '\x27' then "&#x27;".data
  else [c]

/-- Python html.escape with quote=True. -/
def htmlEscape (s : String) : String :=
  ⟨(s.data.map escapeChar).flatten⟩

/-- Python str.split with a one-character separator (never returns an empty list). -/
def splitOnChar (sep : Char) : List Char → List (List Char)
  | [] => [[]]
  | x :: xs =>
    match splitOnChar sep xs with
    | [] => [[]]
    | h :: t => if x == sep then [] :: h :: t else (x :: h) :: t

/-! ## Data rows (the persisted tables of src/server.py init_db) -/

/-- One row of the project_updates table (the Event of the spec). -/
structure EventRow where
  chat_id : String
  author : Option String
  repo_name : String
  branch_name : String
  summary : String
  files_changed : Nat
  files_added : Nat
  files_modified : Nat
  files_removed : Nat
  lines_added : Nat
  lines_removed : Nat
deriving DecidableEq

/-- One row of the github_tokens table (the Credential of the spec). The sealed
token bytes are irrelevant to every claim and are not carried. -/
structure TokenRow where
  chat_id : String
  created_by : Option String
deriving DecidableEq

/-- One row of the pending_token_requests table (the PendingRequest of the spec);
created_at is a timestamp in seconds. -/
structure PendingRow where
  request_id : String
  secret_key : String
  user_id : String
  chat_id : String
  created_at : Int
deriving DecidableEq

/-- The PendingEvent row described by the spec. src/server.py and
src/maintenance.py declare no such table and no code path constructs one;
the type only gives the claims about the Pending Queue something to denote. -/
structure PendingEventRow where
  chat_id : String
  rawPayload : String
deriving DecidableEq

/-- A message posted to the Telegram transport: target chat and body text. -/
structure TgMessage where
  chat_id : String
  text : String
deriving DecidableEq

/-! ## Webhook payload model -/

/-- One element of the push payload commits array. -/
structure CommitData where
  id : Option String
  message : String
  added : List String
  removed : List String
  modified : List String
deriving DecidableEq

def emptyCommit : CommitData := ⟨none, "", [], [], []⟩

/-- The repository.organization field: missing key, null, a bare string, or an
object (for an object the carried value is the result of .get applied for login
with default "Unknown", where a null login yields Python None). -/
inductive OrgField where
  | absent
  | nullv
  | str (s : String)
  | obj (login : Option String)
deriving DecidableEq

/-- One entry of a compare-API files list: filename, additions, deletions and
status, with the Python .get defaults (0, 0, "modified") already applied. -/
structure FileDelta where
  filename : String
  additions : Nat
  deletions : Nat
  status : String
deriving DecidableEq

/-- The fields of the inbound JSON body that src/server.py reads. `pusher` and
`sender` carry the object presence in the outer Option and the name/login
subfield in the inner one. `ownerLogin` is the value of
repository.owner.get login or repository.owner.get name (first truthy). -/
structure PushPayload where
  pusher : Option (Option String) := none
  sender : Option (Option String) := none
  commits : List CommitData := []
  head_commit : Option CommitData := none
  repoName : Option String := none
  organization : OrgField := .absent
  ownerLogin : Option String := none
  refStr : Option String := none
  before : Option String := none
  afterRev : Option String := none
  action : Option String := none
  prNumber : Option Nat := none
  prTitle : Option String := none
  reviewLogin : Option String := none
  reviewState : Option String := none
  issueNumber : Option Nat := none
  issueTitle : Option String := none

/-! ## Registry, tokens, pending requests (DB helper functions) -/

/-- webhooks table lookup: SELECT chat_id FROM webhooks WHERE secret_key = given. -/
def get_chat_id_from_secret (registry : List (String × String)) (secret_key : String) :
    Option String :=
  (registry.find? (fun p => p.1 == secret_key)).map (fun p => p.2)

/-- The same lookup applied to the raw query parameter (a missing parameter is
passed as SQL NULL and matches no row). -/
def lookupO (registry : List (String × String)) (secret_key : Option String) : Option String :=
  secret_key.bind (get_chat_id_from_secret registry)

/-- SELECT created_by FROM github_tokens WHERE chat_id = given. -/
def get_token_creator_for_chat (tokens : List TokenRow) (chat : String) : Option String :=
  match tokens.find? (fun t => t.chat_id == chat) with
  | some t => t.created_by
  | none => none

/-- DELETE FROM github_tokens WHERE chat_id = given. -/
def remove_token_for_chat (tokens : List TokenRow) (chat : String) : List TokenRow :=
  tokens.filter (fun t => t.chat_id != chat)

/-- Whether get_decrypted_token_for_chat would return a token for the chat. -/
def has_token (tokens : List TokenRow) (chat : String) : Bool :=
  tokens.any (fun t => t.chat_id == chat)

/-- INSERT INTO github_tokens ... ON CONFLICT (chat_id) DO UPDATE. -/
def save_encrypted_token_for_chat (tokens : List TokenRow) (chat : String)
    (created_by : Option String) : List TokenRow :=
  (tokens.filter (fun t => t.chat_id != chat)) ++ [⟨chat, created_by⟩]

/-- The SELECT ... ORDER BY created_at DESC LIMIT 1 of get_pending_request_by_user. -/
def pick_most_recent (rows : List PendingRow) : Option PendingRow :=
  rows.foldl
    (fun acc r =>
      match acc with
      | none => some r
      | some b => if b.created_at < r.created_at then some r else acc)
    none

/-- get_pending_request_by_user with its 15-minute TTL: returns the surviving
pending (secret_key, chat_id) pair and the table after the lazy deletion of an
expired row. `now` is the current time in seconds. -/
def get_pending_request_by_user (rows : List PendingRow) (user : String) (now : Int) :
    Option (String × String) × List PendingRow :=
  let mine := rows.filter (fun r => r.user_id == user)
  match pick_most_recent mine with
  | none => (none, rows)
  | some r =>
      if (15 : Int) * 60 < now - r.created_at then
        (none, rows.filter (fun q => q.user_id != user))
      else (some (r.secret_key, r.chat_id), rows)

/-- DELETE FROM pending_token_requests WHERE user_id = given. -/
def clear_pending_request_by_user (rows : List PendingRow) (user : String) : List PendingRow :=
  rows.filter (fun q => q.user_id != user)

/-- processed_commits membership test. Defined in src/server.py (is_commit_processed)
but never invoked by any processing path. -/
def is_commit_processed (processed : List (String × String)) (sha chat : String) : Bool :=
  processed.any (fun pc => pc.1 == sha && pc.2 == chat)

/-- processed_commits insert ON CONFLICT DO NOTHING. Also never invoked. -/
def mark_commit_processed (processed : List (String × String)) (sha chat : String) :
    List (String × String) :=
  if is_commit_processed processed sha chat then processed else processed ++ [(sha, chat)]

/-! ## Event-row construction and push processing -/

/-- save_to_db: one INSERT INTO project_updates; files_changed is the sum of the
three file counts. -/
def save_to_db (chat_id : String) (author : Option String) (repo_name branch_name summary : String)
    (added modified removed lines_added lines_removed : Nat) : EventRow :=
  { chat_id := chat_id, author := author, repo_name := repo_name, branch_name := branch_name,
    summary := summary, files_changed := added + modified + removed, files_added := added,
    files_modified := modified, files_removed := removed, lines_added := lines_added,
    lines_removed := lines_removed }

/-- The two warning texts of mark_token_invalid (emoji omitted). -/
def group_warning_text (reason : Option String) : String :=
  "GitSync: The saved GitHub token for this group appears invalid or lacks required permissions. Exact per-file counts are now disabled until an admin reconfigures the token."
    ++ (match reason with
        | some r => "\n\nReason: " ++ htmlEscape r
        | none => "")

def creator_notice_text (creator : String) : String :=
  "Hi " ++ creator ++ ", your saved GitHub token for this group appears invalid or revoked. Please reconfigure by clicking the secure setup link in the group (/gitsync)."

/-- mark_token_invalid: reads the installer, deletes the credential, posts the
tenant-wide warning, and, when the installer is truthy, the personal notice
(both posted to the group chat, the second addressed to the installer by name). -/
def mark_token_invalid (tokens : List TokenRow) (chat : String) (reason : Option String) :
    List TokenRow × List TgMessage :=
  let creator := get_token_creator_for_chat tokens chat
  let tokens1 := remove_token_for_chat tokens chat
  let msgs : List TgMessage :=
    ⟨chat, group_warning_text reason⟩ ::
      (match creator with
       | some c => if c = "" then [] else [⟨chat, creator_notice_text c⟩]
       | none => [])
  (tokens1, msgs)

/-- The observable outcome of the single GitHub compare call: HTTP 200 with a
files list, 401/403, any other status, or a raised exception. -/
inductive CompareApi where
  | httpOk (files : List FileDelta)
  | httpAuthFail (code : Nat)
  | httpOther (code : Nat)
  | netFail
deriving DecidableEq

/-- try_compare_api_with_chat_token: no stored token short-circuits to
(None, "no-token"); otherwise the call outcome is translated exactly as the
status-code branches of the source do. -/
def try_compare_api_with_chat_token (tokens : List TokenRow) (chat : String) (api : CompareApi) :
    Option (List FileDelta) × Option String :=
  if !has_token tokens chat then (none, some "no-token")
  else
    match api with
    | .httpOk files => (some files, none)
    | .httpAuthFail code => (none, some ("auth-failed-" ++ toString code))
    | .httpOther code => (none, some ("error-" ++ toString code))
    | .netFail => (none, some "exception")

/-- One step of the Python dict comprehension keyed by filename: a later entry
with the same filename overwrites the earlier value, keys keep first-occurrence
order. -/
def upsertFile (m : List FileDelta) (f : FileDelta) : List FileDelta :=
  if m.any (fun g => g.filename == f.filename) then
    m.map (fun g => if g.filename == f.filename then f else g)
  else m ++ [f]

/-- The file_map dict of the exact branch. -/
def fileMap (files : List FileDelta) : List FileDelta :=
  files.foldl upsertFile []

/-- Branch name: last slash-separated segment of the ref, or "unknown" for a falsy ref. -/
def branch_of (refStr : Option String) : String :=
  let r := refStr.getD ""
  if r = "" then "unknown" else ⟨(splitOnChar '/' r.data).getLastD []⟩

/-- The org_name value after the isinstance(dict) normalisation; none is Python None. -/
def org_name_of : OrgField → Option String
  | .absent => some "Unknown Org"
  | .nullv => none
  | .str s => some s
  | .obj login => login

/-- display_repo_name: org/name unless the org is one of the two Unknown markers;
a Python None org fails the membership test and is interpolated as "None". -/
def display_repo_name (org : OrgField) (repoName : String) : String :=
  match org_name_of org with
  | some s => if s ≠ "Unknown" ∧ s ≠ "Unknown Org" then s ++ "/" ++ repoName else repoName
  | none => "None/" ++ repoName

/-- commit id shown in a report: first 7 characters of .get with default "unknown". -/
def commit_id7 (c : CommitData) : String := (c.id.getD "unknown").take 7

def confidence_marker : String := "\n\n<b>Confidence:</b> "

/-- One all_updates entry of the fallback branch. -/
def mkUpdateEntry (cid summary tag : String) : String :=
  "<b>Commit:</b> <code>" ++ cid ++ "</code>\n" ++ summary ++ (confidence_marker ++ tag)

/-- The per-file +a / -d lines of the exact report. -/
def lines_text (fm : List FileDelta) : String :=
  String.intercalate "\n"
    (fm.map (fun f => f.filename ++ ": +" ++ toString f.additions ++ " / -" ++ toString f.deletions))

/-- The exact-branch report body. -/
def mkExactSummary (summary ltext : String) : String :=
  "<b>Push Summary (exact)</b>\n" ++ summary ++ "\n\n" ++ ltext ++ (confidence_marker ++ "exact")

/-- The commits list after the head_commit substitution for an empty list. -/
def effective_commits (p : PushPayload) : List CommitData :=
  if p.commits.isEmpty then
    match p.head_commit with
    | some h => [h]
    | none => []
  else p.commits

/-- Whether the guard owner_login and repo_name and before and after holds, so
that the compare call is attempted at all. -/
def can_compare (p : PushPayload) : Bool :=
  optTruthy p.ownerLogin && (p.repoName.getD "Unknown Repo" != "") &&
    optTruthy p.before && optTruthy p.afterRev

/-- Everything process_standup_task leaves behind: Event rows written, the
all_updates entries built, the Telegram messages posted (revocation warnings
first, then the aggregated report), and the github_tokens table afterwards. -/
structure ProcessResult where
  events : List EventRow
  updates : List String
  tgMessages : List TgMessage
  tokens : List TokenRow
deriving DecidableEq

/-- process_standup_task of src/server.py. `ai` is the external summarizer
(generate_ai_analysis); `api` the compare-call outcome were it attempted.
A present-but-null head_commit (branch deletion payload) aborts the task inside
its try/except and is outside this model. -/
def process_standup_task (tokens : List TokenRow) (chat : String) (author : Option String)
    (data : PushPayload) (api : CompareApi) (ai : CommitData → List String → String) :
    ProcessResult :=
  let repoName := data.repoName.getD "Unknown Repo"
  let displayRepo := display_repo_name data.organization repoName
  let branch := branch_of data.refStr
  let commits := effective_commits data
  let cmp :=
    if can_compare data then try_compare_api_with_chat_token tokens chat api
    else (none, none)
  match cmp.1 with
  | some filesInfo =>
      let fm := fileMap filesInfo
      let totalAdded := (fm.map (fun f => f.additions)).sum
      let totalRemoved := (fm.map (fun f => f.deletions)).sum
      let totalModified := (fm.filter (fun f => f.status == "modified")).length
      let filesList := fm.map (fun f => f.filename)
      let headc :=
        match data.head_commit with
        | some h => h
        | none => commits.headD emptyCommit
      let summary := py_strip (ai headc filesList)
      let ev := save_to_db chat author displayRepo branch summary 0 totalModified 0
        totalAdded totalRemoved
      { events := [ev], updates := [],
        tgMessages := [⟨chat, mkExactSummary summary (lines_text fm)⟩], tokens := tokens }
  | none =>
      let authFailed :=
        match cmp.2 with
        | some e => py_startswith e "auth-failed"
        | none => false
      let revoked := if authFailed then mark_token_invalid tokens chat cmp.2 else (tokens, [])
      let tag := if authFailed then "token-invalid" else "estimated"
      let per := commits.map (fun commit =>
        let filesList := commit.added ++ commit.removed ++ commit.modified
        let summary := py_strip (ai commit filesList)
        (save_to_db chat author displayRepo branch summary commit.added.length
           commit.modified.length commit.removed.length 0 0,
         mkUpdateEntry (commit_id7 commit) summary tag))
      let events := per.map Prod.fst
      let updates := per.map Prod.snd
      let report : List TgMessage :=
        if updates.isEmpty then []
        else [⟨chat, String.intercalate "\n\n----------------\n\n" updates⟩]
      { events := events, updates := updates, tgMessages := revoked.2 ++ report,
        tokens := revoked.1 }

/-! ## The webhook endpoint and the maintenance middleware -/

/-- The author chosen by git_webhook: pusher.name whenever the pusher key is
present, else sender.login whenever the sender key is present, else "Unknown".
A present object whose subfield is missing yields Python None. -/
def extract_author (p : PushPayload) : Option String :=
  match p.pusher with
  | some nameField => nameField
  | none =>
    match p.sender with
    | some loginField => loginField
    | none => some "Unknown"

/-- The auth test of git_webhook: not secret, or not chat, or
str(validated) different from str(chat). -/
def webhook_auth_failed (registry : List (String × String)) (secret chat : Option String) :
    Bool :=
  !optTruthy secret || !optTruthy chat || (pyStr (lookupO registry secret) != pyStr chat)

/-- The group message of the pull_request branch (emoji and dash variant omitted). -/
def pr_event_message (data : PushPayload) : String :=
  "Pull Request " ++ pyStr data.action ++ ": <b>#" ++ pyStrNat data.prNumber ++ "</b> - "
    ++ htmlEscape (data.prTitle.getD "")

/-- The group message of the pull_request_review branch. -/
def review_event_message (data : PushPayload) : String :=
  "PR Review by <b>"
    ++ htmlEscape
      (match data.reviewLogin with
       | some s => if s = "" then "unknown" else s
       | none => "unknown")
    ++ "</b>: <b>#" ++ pyStrNat data.prNumber ++ "</b> - " ++ pyStr data.reviewState

/-- The group message of the issues branch. -/
def issue_event_message (data : PushPayload) : String :=
  "Issue " ++ pyStr data.action ++ ": <b>#" ++ pyStrNat data.issueNumber ++ "</b> - "
    ++ htmlEscape (data.issueTitle.getD "")

/-- The observable result of one request: HTTP status and every effect.
`pendingEvents` is the Pending Queue of the spec; no code path of the sources
ever appends to it. -/
structure WebhookOutcome where
  status : Nat
  events : List EventRow
  pendingEvents : List PendingEventRow
  updates : List String
  tgMessages : List TgMessage
  tokens : List TokenRow
deriving DecidableEq

/-- git_webhook of src/server.py. The pull_request / pull_request_review /
issues branches write to their own tables (not Event rows) and post one group
message; the default branch submits process_standup_task, whose asynchronous
effects are flattened into the outcome. -/
def git_webhook (registry : List (String × String)) (tokens : List TokenRow)
    (secret chat : Option String) (ghEvent : String) (data : PushPayload)
    (api : CompareApi) (ai : CommitData → List String → String) : WebhookOutcome :=
  if webhook_auth_failed registry secret chat then
    { status := 401, events := [], pendingEvents := [], updates := [], tgMessages := [],
      tokens := tokens }
  else
    let target := pyStr chat
    let ev := py_lower ghEvent
    let author := extract_author data
    if ev == "pull_request" then
      { status := 200, events := [], pendingEvents := [], updates := [],
        tgMessages := [⟨target, pr_event_message data⟩], tokens := tokens }
    else if ev == "pull_request_review" then
      { status := 200, events := [], pendingEvents := [], updates := [],
        tgMessages := [⟨target, review_event_message data⟩], tokens := tokens }
    else if ev == "issues" then
      { status := 200, events := [], pendingEvents := [], updates := [],
        tgMessages := [⟨target, issue_event_message data⟩], tokens := tokens }
    else
      let r := process_standup_task tokens target author data api ai
      { status := 200, events := r.events, pendingEvents := [], updates := r.updates,
        tgMessages := r.tgMessages, tokens := r.tokens }

/-- The before_request hook of src/maintenance.py: a non-admin path is blocked
with a 503 whenever the maintenance flag file exists. -/
def maintenance_blocks (path : String) (maintenanceEnabled : Bool) : Bool :=
  !(py_startswith path "/_admin/") && maintenanceEnabled

/-- A request to /webhook as the registered middleware plus git_webhook handle
it: when maintenance is enabled the middleware answers 503 before the view runs
and nothing at all is stored or sent. -/
def handle_webhook_request (maintenanceEnabled : Bool) (registry : List (String × String))
    (tokens : List TokenRow) (secret chat : Option String) (ghEvent : String)
    (data : PushPayload) (api : CompareApi) (ai : CommitData → List String → String) :
    WebhookOutcome :=
  if maintenance_blocks "/webhook" maintenanceEnabled then
    { status := 503, events := [], pendingEvents := [], updates := [], tgMessages := [],
      tokens := tokens }
  else git_webhook registry tokens secret chat ghEvent data api ai

/-- Appending the events of one processed push to the project_updates table;
the pipeline consults no dedup state before the insert. -/
def run_push_once (store : List EventRow) (tokens : List TokenRow) (chat : String)
    (author : Option String) (data : PushPayload) (api : CompareApi)
    (ai : CommitData → List String → String) : List EventRow :=
  store ++ (process_standup_task tokens chat author data api ai).events

/-! ## The private-chat token paste flow (telegram_commands) -/

/-- The outcome of pasting a candidate token in the private chat. -/
structure PasteOutcome where
  rows : List PendingRow
  tokens : List TokenRow
  installed : Bool
deriving DecidableEq

/-- The looks_like_token branch of telegram_commands: look the pending request
up (with its lazy TTL deletion), and only on a surviving request and a valid
token store the credential and clear the request. `tokenValid` is the outcome
of the external validate_github_token call. -/
def token_paste_flow (rows : List PendingRow) (tokens : List TokenRow) (user : String)
    (now : Int) (tokenValid : Bool) (username : Option String) : PasteOutcome :=
  let lk := get_pending_request_by_user rows user now
  match lk.1 with
  | none => { rows := lk.2, tokens := tokens, installed := false }
  | some sc =>
      if tokenValid then
        { rows := clear_pending_request_by_user lk.2 user,
          tokens := save_encrypted_token_for_chat tokens sc.2 username, installed := true }
      else { rows := lk.2, tokens := tokens, installed := false }

/-! ## The scoring engine of the dashboard route

The leaderboard part of the dashboard function is a pure computation over the
per-author aggregates its SQL queries return.  `AuthorFacts` carries exactly
those aggregates; `ScoreWindow` is one scoring window (the authors set and the
facts of each). -/

/-- Per-author aggregates of one window, as the dashboard queries deliver them.
`ci` is present exactly when the author appears in the ci_rows query result and
then carries (passed, total).  The two latency fields are present exactly when
the corresponding AVG query returned a row for the author. -/
structure AuthorFacts where
  merged_prs : Nat
  reviews_done : Nat
  approvals : Nat
  issues_closed : Nat
  bugs_closed : Nat
  cross_reviews : Nat
  commits : Nat
  files_changed : Nat
  ci : Option (Nat × Nat)
  avg_first_review_secs : Option ℚ
  avg_merge_secs : Option ℚ

/-- One scoring window: the authors list (the code iterates a set; the list
order is irrelevant to every score) and the facts of each author. -/
structure ScoreWindow where
  authors : List String
  facts : String → AuthorFacts

/-- Python max over a nonempty list of values (0 for the empty list, which the
callers never reach). -/
def qmax : List ℚ → ℚ
  | [] => 0
  | x :: xs => xs.foldl max x

/-- normalize_map of the dashboard: divide by the maximum over the window, every
author 0 when the maximum is 0; an author outside the window reads the dict
default 0. -/
def normalize_map (w : ScoreWindow) (f : String → ℚ) (a : String) : ℚ :=
  if a ∈ w.authors then
    (let M := qmax (w.authors.map f)
     if M = 0 then 0 else f a / M)
  else 0

/-- normalize_time_map of the dashboard: filter the defined values, all zero
when none is defined, all defined authors 1 when the maximum is 0, otherwise
1 - value / max for defined values and 0 for undefined ones. -/
def normalize_time_map (w : ScoreWindow) (f : String → Option ℚ) (a : String) : ℚ :=
  if a ∈ w.authors then
    (let vals := w.authors.filterMap f
     if vals = [] then 0
     else
       let M := qmax vals
       if M = 0 then (if (f a).isSome then 1 else 0)
       else
         match f a with
         | none => 0
         | some v => 1 - v / M)
  else 0

/-- The ci_map value: passed / max(1, total) when the author has a ci_rows
entry, else the 0.0 the None default is replaced with. -/
def ci_pass_rate (fa : AuthorFacts) : ℚ :=
  match fa.ci with
  | some pt => (pt.1 : ℚ) / ((max 1 pt.2 : Nat) : ℚ)
  | none => 0

/-- The Python-truthiness filter the two latency map comprehensions apply: a
defined average of exactly 0 is replaced by None. -/
def truthy_opt : Option ℚ → Option ℚ
  | some x => if x = 0 then none else some x
  | none => none

/-- first_review_map as built by the dashboard. -/
def fr_map (w : ScoreWindow) : String → Option ℚ :=
  fun x => truthy_opt (w.facts x).avg_first_review_secs

/-- merge_time_map as built by the dashboard. -/
def mg_map (w : ScoreWindow) : String → Option ℚ :=
  fun x => truthy_opt (w.facts x).avg_merge_secs

/-- The composite score accumulated by the leaderboard loop, with the literal
weights of the source. -/
def dashboardComposite (w : ScoreWindow) (a : String) : ℚ :=
  0.20 * normalize_map w (fun x => ((w.facts x).merged_prs : ℚ)) a
    + 0.15 * normalize_map w (fun x => ((w.facts x).reviews_done : ℚ)) a
    + 0.10 * normalize_map w (fun x => ((w.facts x).issues_closed : ℚ)) a
    + 0.15 * normalize_map w (fun x => ((w.facts x).commits : ℚ)) a
    + 0.10 * normalize_map w (fun x => ((w.facts x).files_changed : ℚ)) a
    + 0.08 * normalize_time_map w (fr_map w) a
    + 0.07 * normalize_time_map w (mg_map w) a
    + 0.10 * normalize_map w (fun x => ci_pass_rate (w.facts x)) a
    + 0.05 * normalize_map w (fun x => ((w.facts x).cross_reviews : ℚ)) a

/-- Round-half-to-even on a rational, as Python round applies to the scaled
value. -/
def round_half_even (q : ℚ) : ℤ :=
  let n := ⌊q⌋
  let frac := q - (n : ℚ)
  if frac < 1 / 2 then n
  else if 1 / 2 < frac then n + 1
  else if n % 2 = 0 then n else n + 1

/-- Python round(x, 2) on a rational. -/
def py_round2 (x : ℚ) : ℚ := ((round_half_even (x * 100) : ℤ) : ℚ) / 100

/-- The reported leaderboard score: round(composite * 100, 2). -/
def dashboardScore (w : ScoreWindow) (a : String) : ℚ :=
  py_round2 (dashboardComposite w a * 100)

/-! ### The scoring formula in the words of the specification

These definitions transcribe the claim sentence for the refinement comparison:
count-like metrics divided by the window maximum (0 when the maximum is 0),
latency-like metrics 1 - value / max over the authors with a defined value and
0 for undefined ones, the weighted sum with the fixed weights, times 100,
rounded to two decimals. -/

/-- Count-like normalisation in the words of the spec. -/
def spec_norm_count (w : ScoreWindow) (f : String → ℚ) (a : String) : ℚ :=
  let M := qmax (w.authors.map f)
  if M = 0 then 0 else f a / M

/-- Latency-like normalisation in the words of the spec: 1 - value / maxValue
among authors with a defined value, 0 for the rest. -/
def spec_norm_latency (w : ScoreWindow) (f : String → Option ℚ) (a : String) : ℚ :=
  match f a with
  | none => 0
  | some v => 1 - v / qmax (w.authors.filterMap f)

/-- The composite of the claim, applied to the raw (unfiltered) latency
averages as the claim states it. -/
def spec_composite_orig (w : ScoreWindow) (a : String) : ℚ :=
  0.20 * spec_norm_count w (fun x => ((w.facts x).merged_prs : ℚ)) a
    + 0.15 * spec_norm_count w (fun x => ((w.facts x).reviews_done : ℚ)) a
    + 0.10 * spec_norm_count w (fun x => ((w.facts x).issues_closed : ℚ)) a
    + 0.15 * spec_norm_count w (fun x => ((w.facts x).commits : ℚ)) a
    + 0.10 * spec_norm_count w (fun x => ((w.facts x).files_changed : ℚ)) a
    + 0.08 * spec_norm_latency w (fun x => (w.facts x).avg_first_review_secs) a
    + 0.07 * spec_norm_latency w (fun x => (w.facts x).avg_merge_secs) a
    + 0.10 * spec_norm_count w (fun x => ci_pass_rate (w.facts x)) a
    + 0.05 * spec_norm_count w (fun x => ((w.facts x).cross_reviews : ℚ)) a

/-- The reported score of the claim as stated. -/
def spec_score_orig (w : ScoreWindow) (a : String) : ℚ :=
  py_round2 (spec_composite_orig w a * 100)

/-- The amended composite: the latency normalisation additionally treats a
defined average of exactly 0 as undefined (the Python truthiness of the code),
so such an author scores 0 on that axis. -/
def spec_composite_amended (w : ScoreWindow) (a : String) : ℚ :=
  0.20 * spec_norm_count w (fun x => ((w.facts x).merged_prs : ℚ)) a
    + 0.15 * spec_norm_count w (fun x => ((w.facts x).reviews_done : ℚ)) a
    + 0.10 * spec_norm_count w (fun x => ((w.facts x).issues_closed : ℚ)) a
    + 0.15 * spec_norm_count w (fun x => ((w.facts x).commits : ℚ)) a
    + 0.10 * spec_norm_count w (fun x => ((w.facts x).files_changed : ℚ)) a
    + 0.08 * spec_norm_latency w (fr_map w) a
    + 0.07 * spec_norm_latency w (mg_map w) a
    + 0.10 * spec_norm_count w (fun x => ci_pass_rate (w.facts x)) a
    + 0.05 * spec_norm_count w (fun x => ((w.facts x).cross_reviews : ℚ)) a

/-- The reported score of the amended claim. -/
def spec_score_amended (w : ScoreWindow) (a : String) : ℚ :=
  py_round2 (spec_composite_amended w a * 100)


/-! ## Helper lemmas -/

theorem init_le_foldl_max (l : List ℚ) (init : ℚ) : init ≤ l.foldl max init := by
  induction l generalizing init with
  | nil => exact le_refl _
  | cons y ys ih => exact le_trans (le_max_left init y) (ih (max init y))

theorem le_foldl_max_of_mem {x : ℚ} {l : List ℚ} (init : ℚ) (h : x ∈ l) :
    x ≤ l.foldl max init := by
  induction l generalizing init with
  | nil => cases h
  | cons y ys ih =>
    rcases List.mem_cons.mp h with h1 | h2
    · subst h1
      exact le_trans (le_max_right init x) (init_le_foldl_max ys (max init x))
    · exact ih (max init y) h2

theorem le_qmax_of_mem {x : ℚ} {l : List ℚ} (h : x ∈ l) : x ≤ qmax l := by
  cases l with
  | nil => cases h
  | cons y ys =>
    rcases List.mem_cons.mp h with h1 | h2
    · subst h1; exact init_le_foldl_max ys x
    · exact le_foldl_max_of_mem y h2

theorem upsertFile_of_fresh (m : List FileDelta) (f : FileDelta)
    (h : ∀ g ∈ m, g.filename ≠ f.filename) : upsertFile m f = m ++ [f] := by
  unfold upsertFile
  have hany : m.any (fun g => g.filename == f.filename) = false := by
    simp only [List.any_eq_false]
    intro g hg
    simpa using h g hg
  rw [hany]
  simp

theorem foldl_upsertFile_fresh (files : List FileDelta) (acc : List FileDelta)
    (hdisj : ∀ f ∈ files, ∀ g ∈ acc, g.filename ≠ f.filename)
    (hnd : (files.map (fun f => f.filename)).Nodup) :
    files.foldl upsertFile acc = acc ++ files := by
  induction files generalizing acc with
  | nil => simp
  | cons f fs ih =>
    have h1 : upsertFile acc f = acc ++ [f] :=
      upsertFile_of_fresh acc f (fun g hg => hdisj f (List.mem_cons_self f fs) g hg)
    rw [List.foldl_cons, h1, ih (acc ++ [f])]
    · simp
    · intro f2 hf2 g hg
      rcases List.mem_append.mp hg with hga | hgf
      · exact hdisj f2 (List.mem_cons_of_mem f hf2) g hga
      · have : g = f := by simpa using hgf
        subst this
        have hnotin := (List.nodup_cons.mp hnd).1
        intro he
        exact hnotin (by simpa [← he] using List.mem_map_of_mem (fun f => f.filename) hf2)
    · exact (List.nodup_cons.mp hnd).2

theorem fileMap_eq_of_nodup {files : List FileDelta}
    (hnd : (files.map (fun f => f.filename)).Nodup) : fileMap files = files := by
  unfold fileMap
  rw [foldl_upsertFile_fresh files [] (by intro f hf g hg; cases hg) hnd]
  simp

/-- A body text carries the confidence tag when the Confidence marker followed
by the tag closes it. -/
def confTagged (s tag : String) : Prop :=
  (confidence_marker ++ tag).data <:+ s.data

theorem confTagged_of_eq (pre : String) {s tag : String}
    (h : s.data = pre.data ++ (confidence_marker ++ tag).data) : confTagged s tag := by
  rw [confTagged, h]
  exact List.suffix_append _ _

theorem confTagged_mkUpdateEntry (cid summary tag : String) :
    confTagged (mkUpdateEntry cid summary tag) tag := by
  apply confTagged_of_eq ("<b>Commit:</b> <code>" ++ cid ++ "</code>\n" ++ summary)
  simp [mkUpdateEntry, String.data_append]

theorem confTagged_mkExactSummary (summary ltext : String) :
    confTagged (mkExactSummary summary ltext) "exact" := by
  apply confTagged_of_eq ("<b>Push Summary (exact)</b>\n" ++ summary ++ "\n\n" ++ ltext)
  simp [mkExactSummary, String.data_append]

theorem py_startswith_auth (t : String) :
    py_startswith ("auth-failed-" ++ t) "auth-failed" = true := by
  rw [py_startswith, List.isPrefixOf_iff_prefix, String.data_append]
  rw [show "auth-failed-".data = "auth-failed".data ++ ['-'] from rfl, List.append_assoc]
  exact List.prefix_append _ _

theorem py_startswith_error (t : String) :
    py_startswith ("error-" ++ t) "auth-failed" = false := by
  rw [py_startswith]
  apply Bool.eq_false_iff.mpr
  intro hT
  rw [List.isPrefixOf_iff_prefix] at hT
  rw [String.data_append] at hT
  rw [show "error-".data = 'e' :: "rror-".data from rfl, List.cons_append] at hT
  rw [show "auth-failed".data = 'a' :: "uth-failed".data from rfl] at hT
  rcases hT with ⟨r, hr⟩
  rw [List.cons_append] at hr
  injection hr with h1 _
  exact absurd h1 (by decide)

theorem py_startswith_exception : py_startswith "exception" "auth-failed" = false := by decide

theorem py_startswith_no_token : py_startswith "no-token" "auth-failed" = false := by decide


theorem process_exact_eq (tokens : List TokenRow) (chat : String) (author : Option String)
    (data : PushPayload) (ai : CommitData → List String → String) (files : List FileDelta)
    (hcan : can_compare data = true) (htok : has_token tokens chat = true) :
    process_standup_task tokens chat author data (CompareApi.httpOk files) ai =
      (let fm := fileMap files
       let headc :=
         match data.head_commit with
         | some h => h
         | none => (effective_commits data).headD emptyCommit
       let summary := py_strip (ai headc (fm.map (fun f => f.filename)))
       { events := [save_to_db chat author
            (display_repo_name data.organization (data.repoName.getD "Unknown Repo"))
            (branch_of data.refStr) summary 0
            ((fm.filter (fun f => f.status == "modified")).length) 0
            ((fm.map (fun f => f.additions)).sum) ((fm.map (fun f => f.deletions)).sum)],
         updates := [],
         tgMessages := [⟨chat, mkExactSummary summary (lines_text fm)⟩],
         tokens := tokens }) := by
  simp [process_standup_task, hcan, htok, try_compare_api_with_chat_token]


theorem process_fallback_eq (tokens : List TokenRow) (chat : String) (author : Option String)
    (data : PushPayload) (ai : CommitData → List String → String) (api : CompareApi)
    (err : Option String) (hcan : can_compare data = true)
    (hcmp : try_compare_api_with_chat_token tokens chat api = (none, err)) :
    process_standup_task tokens chat author data api ai =
      (let authFailed :=
         match err with
         | some e => py_startswith e "auth-failed"
         | none => false
       let revoked := if authFailed then mark_token_invalid tokens chat err else (tokens, [])
       let tag := if authFailed then "token-invalid" else "estimated"
       let per := (effective_commits data).map (fun commit =>
         let summary := py_strip (ai commit (commit.added ++ commit.removed ++ commit.modified))
         (save_to_db chat author
            (display_repo_name data.organization (data.repoName.getD "Unknown Repo"))
            (branch_of data.refStr) summary commit.added.length commit.modified.length
            commit.removed.length 0 0,
          mkUpdateEntry (commit_id7 commit) summary tag))
       { events := per.map Prod.fst, updates := per.map Prod.snd,
         tgMessages := revoked.2 ++
           (if (per.map Prod.snd).isEmpty then []
            else [⟨chat, String.intercalate "\n\n----------------\n\n" (per.map Prod.snd)⟩]),
         tokens := revoked.1 }) := by
  simp [process_standup_task, hcan, hcmp]

theorem process_nocompare_eq (tokens : List TokenRow) (chat : String) (author : Option String)
    (data : PushPayload) (ai : CommitData → List String → String) (api : CompareApi)
    (hcan : can_compare data = false) :
    process_standup_task tokens chat author data api ai =
      (let per := (effective_commits data).map (fun commit =>
         let summary := py_strip (ai commit (commit.added ++ commit.removed ++ commit.modified))
         (save_to_db chat author
            (display_repo_name data.organization (data.repoName.getD "Unknown Repo"))
            (branch_of data.refStr) summary commit.added.length commit.modified.length
            commit.removed.length 0 0,
          mkUpdateEntry (commit_id7 commit) summary "estimated"))
       { events := per.map Prod.fst, updates := per.map Prod.snd,
         tgMessages :=
           (if (per.map Prod.snd).isEmpty then []
            else [⟨chat, String.intercalate "\n\n----------------\n\n" (per.map Prod.snd)⟩]),
         tokens := tokens }) := by
  simp [process_standup_task, hcan]

theorem process_events_author (tokens : List TokenRow) (chat : String) (author : Option String)
    (data : PushPayload) (api : CompareApi) (ai : CommitData → List String → String) :
    ∀ e ∈ (process_standup_task tokens chat author data api ai).events, e.author = author := by
  intro e he
  unfold process_standup_task at he
  rcases hx : (if can_compare data then try_compare_api_with_chat_token tokens chat api
      else (none, none)).1 with _ | files
  · simp only [hx, List.map_map, List.mem_map, Function.comp] at he
    obtain ⟨c, hc, hce⟩ := he
    subst hce; rfl
  · simp only [hx, List.mem_singleton] at he
    subst he; rfl


/-! ## Concrete fixtures used by the evaluation theorems -/

/-- A concrete summarizer instance (the summarizer is external and opaque). -/
def aiFix : CommitData → List String → String := fun _ _ => "AI summary"

/-- A one-commit push payload without before/after revisions. -/
def payloadPush1 : PushPayload :=
  { pusher := some (some "dev"), commits := [⟨some "abc1234def", "fix bug", ["a.py"], [], []⟩],
    repoName := some "repo1", refStr := some "refs/heads/main" }

/-! ## C1: maintenance containment -/

/-- C1. The claim states that an event submitted while the Maintenance Gate is
closed is Accepted and enqueued as exactly one PendingEvent, with no Event and
no notification until a Flush.  The code diverges: the before_request hook of
src/maintenance.py answers 503 to the authorized webhook request, and nothing
is enqueued - no pending-queue write exists anywhere in the sources, although
the maintenance page and the admin toggle response both state that webhooks
will be queued.  This theorem evaluates the pipeline at the failing input:
maintenance enabled, valid secret/chat pair, a one-commit push. -/
theorem C1_maintenance_drops_event :
    handle_webhook_request true [("k1", "42")] [] (some "k1") (some "42") "push" payloadPush1
      CompareApi.netFail aiFix =
      { status := 503, events := [], pendingEvents := [], updates := [], tgMessages := [],
        tokens := [] } := by
  decide

/-! ## C2: idempotent reprocessing -/

def c2_store1 : List EventRow :=
  run_push_once [] [] "42" (some "dev") payloadPush1 CompareApi.netFail aiFix

def c2_store2 : List EventRow :=
  run_push_once c2_store1 [] "42" (some "dev") payloadPush1 CompareApi.netFail aiFix

/-- C2. The claim states that a content-derived dedup key per event id and
tenant is checked before Event Store insertion, so reprocessing the same raw
payload inserts no additional rows.  The code diverges: is_commit_processed
and mark_commit_processed exist but process_standup_task never consults them,
so the second processing of the same payload appends a second identical row
and the aggregates double-count. -/
theorem C2_reprocessing_double_inserts :
    c2_store1.length = 1 ∧ c2_store2.length = 2 ∧ c2_store2 = c2_store1 ++ c2_store1 := by
  decide

/-! ## C3: authorization correctness -/

/-- C3 counterexample. The claim demands Unauthorized with no Event for every
(secret, claim) pair that does not resolve; but for an unknown secret and the
literal claim "None" the code compares str(None) = "None" with the claim and
accepts, then processes the push and persists an Event. -/
theorem C3_counterexample_none_claim :
    (git_webhook [("s1", "123")] [] (some "s2") (some "None") "push" payloadPush1
      CompareApi.netFail aiFix).status = 200 ∧
    (git_webhook [("s1", "123")] [] (some "s2") (some "None") "push" payloadPush1
      CompareApi.netFail aiFix).events.length = 1 := by
  decide

/-- C3 (amended). For every (secret, claim) pair where the secret does not
resolve to exactly the claimed tenant identifier, and which is not the
str(None) = "None" corner (unresolvable secret with the literal claim "None"),
the endpoint answers 401 and produces neither an Event nor a PendingEvent. -/
theorem C3_unauthorized_rejects (registry : List (String × String)) (tokens : List TokenRow)
    (secret chat : Option String) (ghEvent : String) (data : PushPayload)
    (api : CompareApi) (ai : CommitData → List String → String)
    (hnores : ∀ s c, secret = some s → chat = some c →
      get_chat_id_from_secret registry s ≠ some c)
    (hcorner : ¬(optTruthy secret = true ∧ chat = some "None" ∧
      lookupO registry secret = none)) :
    (git_webhook registry tokens secret chat ghEvent data api ai).status = 401 ∧
    (git_webhook registry tokens secret chat ghEvent data api ai).events = [] ∧
    (git_webhook registry tokens secret chat ghEvent data api ai).pendingEvents = [] := by
  have hfail : webhook_auth_failed registry secret chat = true := by
    cases secret with
    | none => simp [webhook_auth_failed, optTruthy]
    | some s =>
      cases chat with
      | none => simp [webhook_auth_failed, optTruthy]
      | some c =>
        by_cases hs0 : s = ""
        · simp [webhook_auth_failed, optTruthy, hs0]
        · by_cases hc0 : c = ""
          · simp [webhook_auth_failed, optTruthy, hc0]
          · have hm : pyStr (lookupO registry (some s)) ≠ pyStr (some c) := by
              cases hL : get_chat_id_from_secret registry s with
              | some d =>
                have hd : d ≠ c := fun he => hnores s c rfl rfl (by rw [hL, he])
                simpa [lookupO, hL, pyStr] using hd
              | none =>
                have hc1 : c ≠ "None" := by
                  intro he
                  exact hcorner ⟨by simp [optTruthy, hs0], by rw [he], by simp [lookupO, hL]⟩
                simpa [lookupO, hL, pyStr] using fun he => hc1 he.symm
            simp [webhook_auth_failed, optTruthy, hs0, hc0, bne_iff_ne, hm]
  simp [git_webhook, hfail]

/-- C3 witness: the amended theorem applied to a concrete unknown secret with an
ordinary (non-"None") claim. -/
theorem C3_unauthorized_rejects_witness :
    (git_webhook [("s1", "123")] [] (some "bad") (some "999") "push" payloadPush1
      CompareApi.netFail aiFix).status = 401 ∧
    (git_webhook [("s1", "123")] [] (some "bad") (some "999") "push" payloadPush1
      CompareApi.netFail aiFix).events = [] ∧
    (git_webhook [("s1", "123")] [] (some "bad") (some "999") "push" payloadPush1
      CompareApi.netFail aiFix).pendingEvents = [] :=
  C3_unauthorized_rejects [("s1", "123")] [] (some "bad") (some "999") "push" payloadPush1
    CompareApi.netFail aiFix
    (by intro s c hs hc; injection hs with h1; injection hc with h2; subst h1; subst h2; decide)
    (by decide)


/-! ## C4: diff-resolution failure handling -/

/-- The common shape of every fallback run: given the pair the compare helper
returned, the credential is deleted exactly when the error starts with
auth-failed, one Event row and one update entry per commit are produced, every
update entry carries the matching confidence tag, and the posted messages are
the revocation warnings (tenant-wide warning plus the installer notice when
the installer is truthy) followed by the aggregated report. -/
theorem process_fallback_shape (tokens : List TokenRow) (chat : String) (author : Option String)
    (data : PushPayload) (ai : CommitData → List String → String) (api : CompareApi)
    (err : Option String) (hcan : can_compare data = true)
    (hcmp : try_compare_api_with_chat_token tokens chat api = (none, err)) :
    (process_standup_task tokens chat author data api ai).tokens =
        (if (match err with | some e => py_startswith e "auth-failed" | none => false)
         then remove_token_for_chat tokens chat else tokens) ∧
    (process_standup_task tokens chat author data api ai).events.length =
        (effective_commits data).length ∧
    (process_standup_task tokens chat author data api ai).updates.length =
        (effective_commits data).length ∧
    (∀ u ∈ (process_standup_task tokens chat author data api ai).updates,
      confTagged u
        (if (match err with | some e => py_startswith e "auth-failed" | none => false)
         then "token-invalid" else "estimated")) ∧
    (process_standup_task tokens chat author data api ai).tgMessages =
        (if (match err with | some e => py_startswith e "auth-failed" | none => false)
         then (⟨chat, group_warning_text err⟩ : TgMessage) ::
            (match get_token_creator_for_chat tokens chat with
             | some c => if c = "" then [] else [⟨chat, creator_notice_text c⟩]
             | none => [])
         else []) ++
        (if (process_standup_task tokens chat author data api ai).updates.isEmpty then []
         else [⟨chat, String.intercalate "\n\n----------------\n\n"
            (process_standup_task tokens chat author data api ai).updates⟩]) := by
  rw [process_fallback_eq tokens chat author data ai api err hcan hcmp]
  refine ⟨?_, by simp, by simp, ?_, ?_⟩
  · cases err with
    | none => simp
    | some e =>
      by_cases hsw : py_startswith e "auth-failed" = true
      · simp [hsw, mark_token_invalid]
      · rw [Bool.not_eq_true] at hsw
        simp [hsw, mark_token_invalid]
  · intro u hu
    simp only [List.map_map, List.mem_map, Function.comp] at hu
    obtain ⟨c, hc, hcu⟩ := hu
    subst hcu
    exact confTagged_mkUpdateEntry _ _ _
  · cases err with
    | none => simp [mark_token_invalid]
    | some e =>
      by_cases hsw : py_startswith e "auth-failed" = true
      · simp [hsw, mark_token_invalid]
      · rw [Bool.not_eq_true] at hsw
        simp [hsw, mark_token_invalid]


/-- C4. On an authorization failure of diff resolution (error starting with
auth-failed), the tenant credential is deleted, the posted messages open with
the tenant-wide warning followed (when the installer is known) by the notice
addressed to the installer and close with the aggregated report, and every
persisted Event has its update entry tagged token-invalid; on any other
failure (other HTTP status, exception, missing token) the credential table is
untouched and the tag is estimated. -/
theorem C4_auth_failure_handling (tokens : List TokenRow) (chat : String) (author : Option String)
    (data : PushPayload) (ai : CommitData → List String → String)
    (hcan : can_compare data = true) :
    (∀ code : Nat, has_token tokens chat = true →
      (process_standup_task tokens chat author data (CompareApi.httpAuthFail code) ai).tokens =
          remove_token_for_chat tokens chat ∧
      (∀ u ∈ (process_standup_task tokens chat author data
          (CompareApi.httpAuthFail code) ai).updates, confTagged u "token-invalid") ∧
      (process_standup_task tokens chat author data
          (CompareApi.httpAuthFail code) ai).updates.length =
        (process_standup_task tokens chat author data
          (CompareApi.httpAuthFail code) ai).events.length ∧
      (process_standup_task tokens chat author data (CompareApi.httpAuthFail code) ai).tgMessages =
        ((⟨chat, group_warning_text (some ("auth-failed-" ++ toString code))⟩ : TgMessage) ::
          (match get_token_creator_for_chat tokens chat with
           | some c => if c = "" then [] else [⟨chat, creator_notice_text c⟩]
           | none => [])) ++
        (if (process_standup_task tokens chat author data
              (CompareApi.httpAuthFail code) ai).updates.isEmpty then []
         else [⟨chat, String.intercalate "\n\n----------------\n\n"
            (process_standup_task tokens chat author data
              (CompareApi.httpAuthFail code) ai).updates⟩])) ∧
    (∀ api : CompareApi,
      ((∃ n, api = CompareApi.httpOther n) ∨ api = CompareApi.netFail ∨
          has_token tokens chat = false) →
      (process_standup_task tokens chat author data api ai).tokens = tokens ∧
      (∀ u ∈ (process_standup_task tokens chat author data api ai).updates,
        confTagged u "estimated") ∧
      (process_standup_task tokens chat author data api ai).tgMessages =
        (if (process_standup_task tokens chat author data api ai).updates.isEmpty then []
         else [⟨chat, String.intercalate "\n\n----------------\n\n"
            (process_standup_task tokens chat author data api ai).updates⟩])) := by
  have finish : ∀ (api2 : CompareApi) (err : Option String),
      try_compare_api_with_chat_token tokens chat api2 = (none, err) →
      (match err with | some e => py_startswith e "auth-failed" | none => false) = false →
      (process_standup_task tokens chat author data api2 ai).tokens = tokens ∧
      (∀ u ∈ (process_standup_task tokens chat author data api2 ai).updates,
        confTagged u "estimated") ∧
      (process_standup_task tokens chat author data api2 ai).tgMessages =
        (if (process_standup_task tokens chat author data api2 ai).updates.isEmpty then []
         else [⟨chat, String.intercalate "\n\n----------------\n\n"
            (process_standup_task tokens chat author data api2 ai).updates⟩]) := by
    intro api2 err hcmp hflag
    obtain ⟨h1, h2, h3, h4, h5⟩ :=
      process_fallback_shape tokens chat author data ai api2 err hcan hcmp
    rw [hflag] at h1 h4 h5
    simp only [Bool.false_eq_true, if_false] at h1 h4 h5
    exact ⟨h1, h4, by simpa using h5⟩
  constructor
  · intro code htok
    have hcmp : try_compare_api_with_chat_token tokens chat (CompareApi.httpAuthFail code) =
        (none, some ("auth-failed-" ++ toString code)) := by
      simp [try_compare_api_with_chat_token, htok]
    obtain ⟨h1, h2, h3, h4, h5⟩ :=
      process_fallback_shape tokens chat author data ai (CompareApi.httpAuthFail code)
        (some ("auth-failed-" ++ toString code)) hcan hcmp
    rw [show (match (some ("auth-failed-" ++ toString code) : Option String) with
        | some e => py_startswith e "auth-failed" | none => false) = true
      from py_startswith_auth (toString code)] at h1 h4 h5
    simp only [if_true] at h1 h4 h5
    exact ⟨h1, h4, h3.trans h2.symm, by simpa using h5⟩
  · intro api hcond
    rcases hcond with ⟨n, rfl⟩ | rfl | hno
    · by_cases htok : has_token tokens chat = true
      · exact finish _ (some ("error-" ++ toString n))
          (by simp [try_compare_api_with_chat_token, htok]) (py_startswith_error (toString n))
      · rw [Bool.not_eq_true] at htok
        exact finish _ (some "no-token")
          (by simp [try_compare_api_with_chat_token, htok]) py_startswith_no_token
    · by_cases htok : has_token tokens chat = true
      · exact finish _ (some "exception")
          (by simp [try_compare_api_with_chat_token, htok]) py_startswith_exception
      · rw [Bool.not_eq_true] at htok
        exact finish _ (some "no-token")
          (by simp [try_compare_api_with_chat_token, htok]) py_startswith_no_token
    · exact finish api (some "no-token")
        (by simp [try_compare_api_with_chat_token, hno]) py_startswith_no_token


/-- A push payload with owner and before/after revisions, so that the compare
call is attempted. -/
def payloadCompare : PushPayload :=
  { pusher := some (some "dev"), commits := [⟨some "abc1234def", "fix bug", ["a.py"], [], []⟩],
    repoName := some "repo1", ownerLogin := some "org1", refStr := some "refs/heads/main",
    before := some "b1", afterRev := some "a1" }

/-- One stored credential for chat 42, installed by bob. -/
def tok42 : List TokenRow := [⟨"42", some "bob"⟩]

/-- C4 witness: a 401 run against the stored credential of chat 42 revokes it
and tags token-invalid; a 500 run leaves it in place and tags estimated. -/
theorem C4_auth_failure_handling_witness :
    ((process_standup_task tok42 "42" (some "dev") payloadCompare
        (CompareApi.httpAuthFail 401) aiFix).tokens = remove_token_for_chat tok42 "42" ∧
      (∀ u ∈ (process_standup_task tok42 "42" (some "dev") payloadCompare
          (CompareApi.httpAuthFail 401) aiFix).updates, confTagged u "token-invalid") ∧
      (process_standup_task tok42 "42" (some "dev") payloadCompare
          (CompareApi.httpAuthFail 401) aiFix).updates.length =
        (process_standup_task tok42 "42" (some "dev") payloadCompare
          (CompareApi.httpAuthFail 401) aiFix).events.length ∧
      (process_standup_task tok42 "42" (some "dev") payloadCompare
          (CompareApi.httpAuthFail 401) aiFix).tgMessages =
        ((⟨"42", group_warning_text (some ("auth-failed-" ++ toString 401))⟩ : TgMessage) ::
          (match get_token_creator_for_chat tok42 "42" with
           | some c => if c = "" then [] else [⟨"42", creator_notice_text c⟩]
           | none => [])) ++
        (if (process_standup_task tok42 "42" (some "dev") payloadCompare
              (CompareApi.httpAuthFail 401) aiFix).updates.isEmpty then []
         else [⟨"42", String.intercalate "\n\n----------------\n\n"
            (process_standup_task tok42 "42" (some "dev") payloadCompare
              (CompareApi.httpAuthFail 401) aiFix).updates⟩])) ∧
    ((process_standup_task tok42 "42" (some "dev") payloadCompare
        (CompareApi.httpOther 500) aiFix).tokens = tok42 ∧
      (∀ u ∈ (process_standup_task tok42 "42" (some "dev") payloadCompare
          (CompareApi.httpOther 500) aiFix).updates, confTagged u "estimated") ∧
      (process_standup_task tok42 "42" (some "dev") payloadCompare
          (CompareApi.httpOther 500) aiFix).tgMessages =
        (if (process_standup_task tok42 "42" (some "dev") payloadCompare
              (CompareApi.httpOther 500) aiFix).updates.isEmpty then []
         else [⟨"42", String.intercalate "\n\n----------------\n\n"
            (process_standup_task tok42 "42" (some "dev") payloadCompare
              (CompareApi.httpOther 500) aiFix).updates⟩])) := by
  have h := C4_auth_failure_handling tok42 "42" (some "dev") payloadCompare aiFix (by decide)
  exact ⟨h.1 401 (by decide), h.2 (CompareApi.httpOther 500) (Or.inl ⟨500, rfl⟩)⟩

/-! ## C5 and C10: the exact branch -/

/-- C5. On a successful compare call (HTTP 200 with a per-file list, filenames
pairwise distinct), exactly one Event is persisted, its line totals are the
sums of the per-file additions and deletions, and the single posted report
carries confidence exact. -/
theorem C5_exact_totals (tokens : List TokenRow) (chat : String) (author : Option String)
    (data : PushPayload) (ai : CommitData → List String → String) (files : List FileDelta)
    (hcan : can_compare data = true) (htok : has_token tokens chat = true)
    (hnd : (files.map (fun f => f.filename)).Nodup) :
    (process_standup_task tokens chat author data (CompareApi.httpOk files) ai).events.length
        = 1 ∧
    (∀ e ∈ (process_standup_task tokens chat author data (CompareApi.httpOk files) ai).events,
      e.lines_added = (files.map (fun f => f.additions)).sum ∧
      e.lines_removed = (files.map (fun f => f.deletions)).sum) ∧
    (process_standup_task tokens chat author data
        (CompareApi.httpOk files) ai).tgMessages.length = 1 ∧
    (∀ m ∈ (process_standup_task tokens chat author data
        (CompareApi.httpOk files) ai).tgMessages, confTagged m.text "exact") := by
  simp only [process_exact_eq tokens chat author data ai files hcan htok,
    fileMap_eq_of_nodup hnd]
  refine ⟨rfl, ?_, rfl, ?_⟩
  · intro e he
    simp only [List.mem_singleton] at he
    subst he
    exact ⟨rfl, rfl⟩
  · intro m hm
    simp only [List.mem_singleton] at hm
    subst hm
    exact confTagged_mkExactSummary _ _

/-- The five-file diff of the spec scenario: +42 / -7 in total. -/
def files5 : List FileDelta :=
  [⟨"a.py", 10, 1, "modified"⟩, ⟨"b.py", 10, 1, "modified"⟩, ⟨"c.py", 10, 1, "added"⟩,
   ⟨"d.py", 10, 2, "modified"⟩, ⟨"e.py", 2, 2, "removed"⟩]

/-- C5 witness: the +42 / -7 five-file diff yields one Event with
lines_added 42 and lines_removed 7 and an exact-tagged report. -/
theorem C5_exact_totals_witness :
    (process_standup_task tok42 "42" (some "dev") payloadCompare
        (CompareApi.httpOk files5) aiFix).events.length = 1 ∧
    (∀ e ∈ (process_standup_task tok42 "42" (some "dev") payloadCompare
        (CompareApi.httpOk files5) aiFix).events,
      e.lines_added = 42 ∧ e.lines_removed = 7) ∧
    (process_standup_task tok42 "42" (some "dev") payloadCompare
        (CompareApi.httpOk files5) aiFix).tgMessages.length = 1 ∧
    (∀ m ∈ (process_standup_task tok42 "42" (some "dev") payloadCompare
        (CompareApi.httpOk files5) aiFix).tgMessages, confTagged m.text "exact") := by
  obtain ⟨h1, h2, h3, h4⟩ := C5_exact_totals tok42 "42" (some "dev") payloadCompare aiFix files5
    (by decide) (by decide) (by decide)
  refine ⟨h1, ?_, h3, h4⟩
  intro e he
  obtain ⟨ha, hb⟩ := h2 e he
  exact ⟨ha.trans (by decide), hb.trans (by decide)⟩

/-- C10. On a successful compare call the single persisted Event always has
files_added = 0 and files_removed = 0; files_modified is the number of touched
files whose status is exactly modified, and the stored files_changed total
equals that same count. -/
theorem C10_exact_file_counts (tokens : List TokenRow) (chat : String) (author : Option String)
    (data : PushPayload) (ai : CommitData → List String → String) (files : List FileDelta)
    (hcan : can_compare data = true) (htok : has_token tokens chat = true)
    (hnd : (files.map (fun f => f.filename)).Nodup) :
    (process_standup_task tokens chat author data (CompareApi.httpOk files) ai).events.length
        = 1 ∧
    (∀ e ∈ (process_standup_task tokens chat author data (CompareApi.httpOk files) ai).events,
      e.files_added = 0 ∧ e.files_removed = 0 ∧
      e.files_modified = (files.filter (fun f => f.status == "modified")).length ∧
      e.files_changed = (files.filter (fun f => f.status == "modified")).length) := by
  simp only [process_exact_eq tokens chat author data ai files hcan htok,
    fileMap_eq_of_nodup hnd]
  refine ⟨rfl, ?_⟩
  intro e he
  simp only [List.mem_singleton] at he
  subst he
  exact ⟨rfl, rfl, rfl, by simp [save_to_db]⟩

/-- C10 witness: on the five-file diff (3 modified, 1 added, 1 removed) the
Event stores files_added 0, files_removed 0, files_modified 3, files_changed 3. -/
theorem C10_exact_file_counts_witness :
    (process_standup_task tok42 "42" (some "dev") payloadCompare
        (CompareApi.httpOk files5) aiFix).events.length = 1 ∧
    (∀ e ∈ (process_standup_task tok42 "42" (some "dev") payloadCompare
        (CompareApi.httpOk files5) aiFix).events,
      e.files_added = 0 ∧ e.files_removed = 0 ∧ e.files_modified = 3 ∧ e.files_changed = 3) := by
  obtain ⟨h1, h2⟩ := C10_exact_file_counts tok42 "42" (some "dev") payloadCompare aiFix files5
    (by decide) (by decide) (by decide)
  refine ⟨h1, ?_⟩
  intro e he
  obtain ⟨ha, hb, hc, hd⟩ := h2 e he
  exact ⟨ha, hb, hc.trans (by decide), hd.trans (by decide)⟩


/-! ## C8: author extraction -/

/-- A payload whose pusher object is present but lacks the name subfield while
a sender login is available. -/
def payloadNullPusher : PushPayload :=
  { pusher := some none, sender := some (some "alice"),
    commits := [⟨some "abc1234def", "fix bug", ["a.py"], [], []⟩],
    repoName := some "repo1", refStr := some "refs/heads/dev" }

/-- C8 counterexample. The claim says a missing pusher name falls back to the
sender login and that the persisted author is never null.  The code only falls
back when the pusher key itself is absent: with pusher present but nameless
and sender "alice" available, the persisted Event carries a null author. -/
theorem C8_counterexample_null_author :
    (git_webhook [("k1", "42")] [] (some "k1") (some "42") "push" payloadNullPusher
      CompareApi.netFail aiFix).events.map (fun e => e.author) = [none] := by
  decide

/-- C8 (amended). The persisted author of a push-shaped event is the pusher
name subfield whenever the pusher key is present (null when that subfield is
missing); only with no pusher key does it fall back to the sender login (null
when that subfield is missing), and to the literal "Unknown" only when both
keys are absent. -/
theorem C8_author_extraction (registry : List (String × String)) (tokens : List TokenRow)
    (secret chat : Option String) (ghEvent : String) (data : PushPayload)
    (api : CompareApi) (ai : CommitData → List String → String)
    (hauth : webhook_auth_failed registry secret chat = false)
    (hev : py_lower ghEvent ≠ "pull_request" ∧ py_lower ghEvent ≠ "pull_request_review" ∧
      py_lower ghEvent ≠ "issues") :
    ∀ e ∈ (git_webhook registry tokens secret chat ghEvent data api ai).events,
      e.author =
        (match data.pusher with
         | some nameField => nameField
         | none =>
           match data.sender with
           | some loginField => loginField
           | none => some "Unknown") := by
  intro e he
  have h1 : (py_lower ghEvent == "pull_request") = false := beq_eq_false_iff_ne.mpr hev.1
  have h2 : (py_lower ghEvent == "pull_request_review") = false :=
    beq_eq_false_iff_ne.mpr hev.2.1
  have h3 : (py_lower ghEvent == "issues") = false := beq_eq_false_iff_ne.mpr hev.2.2
  unfold git_webhook at he
  simp only [hauth, h1, h2, h3, Bool.false_eq_true, if_false] at he
  exact process_events_author tokens (pyStr chat) (extract_author data) data api ai e he

/-- C8 witness: with a pusher name present the persisted author is that name. -/
theorem C8_author_extraction_witness :
    (git_webhook [("k1", "42")] [] (some "k1") (some "42") "push" payloadPush1
      CompareApi.netFail aiFix).events.length = 1 ∧
    (∀ e ∈ (git_webhook [("k1", "42")] [] (some "k1") (some "42") "push" payloadPush1
      CompareApi.netFail aiFix).events, e.author = some "dev") := by
  have h := C8_author_extraction [("k1", "42")] [] (some "k1") (some "42") "push" payloadPush1
    CompareApi.netFail aiFix (by decide) ⟨by decide, by decide, by decide⟩
  exact ⟨by decide, h⟩

/-! ## C9: PendingRequest TTL -/

/-- C9. A PendingRequest expires after the fixed 15-minute TTL: a lookup
strictly more than 15 minutes after creation reports no pending request and
lazily deletes the row, and a token paste at such a time installs nothing (the
credential table is unchanged), whatever the candidate token validation would
have said. -/
theorem C9_ttl_expiry (reqid secret user chat : String) (t now : Int)
    (tokens : List TokenRow) (tokenValid : Bool) (username : Option String)
    (hage : (15 : Int) * 60 < now - t) :
    (get_pending_request_by_user [⟨reqid, secret, user, chat, t⟩] user now).1 = none ∧
    (get_pending_request_by_user [⟨reqid, secret, user, chat, t⟩] user now).2 = [] ∧
    (token_paste_flow [⟨reqid, secret, user, chat, t⟩] tokens user now
        tokenValid username).tokens = tokens ∧
    (token_paste_flow [⟨reqid, secret, user, chat, t⟩] tokens user now
        tokenValid username).installed = false := by
  have hlk : get_pending_request_by_user [⟨reqid, secret, user, chat, t⟩] user now =
      (none, []) := by
    unfold get_pending_request_by_user
    simp only [List.filter, beq_self_eq_true, if_pos, pick_most_recent, List.foldl]
    rw [if_pos hage]
    simp
  refine ⟨by rw [hlk], by rw [hlk], ?_, ?_⟩ <;>
    · unfold token_paste_flow
      rw [hlk]

/-- C9 witness: a handshake completed 16 minutes after the request finds no
pending request and creates no credential. -/
theorem C9_ttl_expiry_witness :
    (get_pending_request_by_user [⟨"r1", "s1", "u1", "42", 0⟩] "u1" 960).1 = none ∧
    (get_pending_request_by_user [⟨"r1", "s1", "u1", "42", 0⟩] "u1" 960).2 = [] ∧
    (token_paste_flow [⟨"r1", "s1", "u1", "42", 0⟩] [] "u1" 960 true (some "bob")).tokens
        = [] ∧
    (token_paste_flow [⟨"r1", "s1", "u1", "42", 0⟩] [] "u1" 960 true
        (some "bob")).installed = false :=
  C9_ttl_expiry "r1" "s1" "u1" "42" 0 960 [] true (some "bob") (by decide)


/-! ## C6 and C7: the scoring engine -/

theorem normalize_map_eq_spec {w : ScoreWindow} {a : String} (ha : a ∈ w.authors)
    (f : String → ℚ) : normalize_map w f a = spec_norm_count w f a := by
  simp [normalize_map, spec_norm_count, ha]

theorem normalize_time_map_eq_spec {w : ScoreWindow} {a : String} (ha : a ∈ w.authors)
    (f : String → Option ℚ) : normalize_time_map w f a = spec_norm_latency w f a := by
  unfold normalize_time_map spec_norm_latency
  rw [if_pos ha]
  by_cases h0 : w.authors.filterMap f = []
  · have hfa : f a = none := (List.filterMap_eq_nil_iff.mp h0) a ha
    simp [h0, hfa]
  · by_cases hM : qmax (w.authors.filterMap f) = 0
    · cases hfa : f a with
      | none => simp [h0, hM, hfa]
      | some v => simp [h0, hM, hfa, div_zero]
    · cases hfa : f a with
      | none => simp [h0, hM, hfa]
      | some v => simp [h0, hM, hfa]

/-- C6 (amended). For every author of the window, the reported leaderboard
score is the weighted sum of the nine normalized metrics with the fixed
weights, times 100, rounded to two decimals - where the latency-like metrics
are normalized as 1 - value / maxValue among the authors with a defined
NONZERO average (the code drops a defined average of exactly 0 through Python
truthiness, scoring such an author 0 on that axis). -/
theorem C6_score_formula (w : ScoreWindow) (a : String) (ha : a ∈ w.authors) :
    dashboardScore w a = spec_score_amended w a := by
  unfold dashboardScore spec_score_amended
  have h : dashboardComposite w a = spec_composite_amended w a := by
    unfold dashboardComposite spec_composite_amended
    simp only [normalize_map_eq_spec ha, normalize_time_map_eq_spec ha]
  rw [h]

/-- The author whose average first-review latency is exactly 0 seconds. -/
def cxa : AuthorFacts :=
  { merged_prs := 0, reviews_done := 0, approvals := 0, issues_closed := 0, bugs_closed := 0,
    cross_reviews := 0, commits := 0, files_changed := 0, ci := none,
    avg_first_review_secs := some 0, avg_merge_secs := none }

/-- A second author with a 100-second average first-review latency. -/
def cxb : AuthorFacts :=
  { merged_prs := 0, reviews_done := 0, approvals := 0, issues_closed := 0, bugs_closed := 0,
    cross_reviews := 0, commits := 0, files_changed := 0, ci := none,
    avg_first_review_secs := some 100, avg_merge_secs := none }

def cxWindow : ScoreWindow := ⟨["a", "b"], fun x => if x = "a" then cxa else cxb⟩

/-- C6 counterexample. Author a has a DEFINED first-review average of exactly
0 seconds; the claim formula gives 1 - 0/100 = 1 on that axis, hence the
reported score 8.0, but the code drops the zero average through Python
truthiness and reports 0. -/
theorem C6_counterexample_zero_latency :
    dashboardScore cxWindow "a" = 0 ∧ spec_score_orig cxWindow "a" = 8 ∧
    dashboardScore cxWindow "a" ≠ spec_score_orig cxWindow "a" := by
  have h1 : dashboardScore cxWindow "a" = 0 := by
    norm_num [dashboardScore, dashboardComposite, normalize_map, normalize_time_map, cxWindow,
      cxa, cxb, fr_map, mg_map, truthy_opt, ci_pass_rate, qmax, py_round2, round_half_even]
  have h2 : spec_score_orig cxWindow "a" = 8 := by
    norm_num [spec_score_orig, spec_composite_orig, spec_norm_count, spec_norm_latency, cxWindow,
      cxa, cxb, ci_pass_rate, qmax, py_round2, round_half_even]
  exact ⟨h1, h2, by rw [h1, h2]; norm_num⟩

/-- C6 witness: the amended formula evaluated for a member author. -/
theorem C6_score_formula_witness :
    dashboardScore cxWindow "a" = spec_score_amended cxWindow "a" :=
  C6_score_formula cxWindow "a" (by decide)

/-- C7. With identical metrics except a strictly greater merged-PR count, the
composite score is strictly greater. -/
theorem C7_merged_pr_monotonicity (w : ScoreWindow) (A B : String)
    (hA : A ∈ w.authors) (hB : B ∈ w.authors)
    (h1 : (w.facts A).reviews_done = (w.facts B).reviews_done)
    (h2 : (w.facts A).issues_closed = (w.facts B).issues_closed)
    (h3 : (w.facts A).commits = (w.facts B).commits)
    (h4 : (w.facts A).files_changed = (w.facts B).files_changed)
    (h5 : (w.facts A).cross_reviews = (w.facts B).cross_reviews)
    (h6 : (w.facts A).ci = (w.facts B).ci)
    (h7 : (w.facts A).avg_first_review_secs = (w.facts B).avg_first_review_secs)
    (h8 : (w.facts A).avg_merge_secs = (w.facts B).avg_merge_secs)
    (hlt : (w.facts B).merged_prs < (w.facts A).merged_prs) :
    dashboardComposite w B < dashboardComposite w A := by
  have cc : ∀ (f : String → ℚ), f A = f B → normalize_map w f A = normalize_map w f B := by
    intro f hf
    simp [normalize_map, hA, hB, hf]
  have ct : ∀ (f : String → Option ℚ), f A = f B →
      normalize_time_map w f A = normalize_time_map w f B := by
    intro f hf
    simp [normalize_time_map, hA, hB, hf]
  have e1 := cc (fun x => ((w.facts x).reviews_done : ℚ)) (by simp [h1])
  have e2 := cc (fun x => ((w.facts x).issues_closed : ℚ)) (by simp [h2])
  have e3 := cc (fun x => ((w.facts x).commits : ℚ)) (by simp [h3])
  have e4 := cc (fun x => ((w.facts x).files_changed : ℚ)) (by simp [h4])
  have e5 := cc (fun x => ((w.facts x).cross_reviews : ℚ)) (by simp [h5])
  have e6 := cc (fun x => ci_pass_rate (w.facts x)) (by simp [ci_pass_rate, h6])
  have e7 := ct (fr_map w) (by simp [fr_map, h7])
  have e8 := ct (mg_map w) (by simp [mg_map, h8])
  have hposA : (0 : ℚ) < ((w.facts A).merged_prs : ℚ) := by
    exact_mod_cast Nat.lt_of_le_of_lt (Nat.zero_le _) hlt
  have hMA : ((w.facts A).merged_prs : ℚ) ≤
      qmax (w.authors.map (fun x => ((w.facts x).merged_prs : ℚ))) :=
    le_qmax_of_mem (List.mem_map_of_mem (fun x => ((w.facts x).merged_prs : ℚ)) hA)
  have hMpos : 0 < qmax (w.authors.map (fun x => ((w.facts x).merged_prs : ℚ))) :=
    lt_of_lt_of_le hposA hMA
  have hMne : qmax (w.authors.map (fun x => ((w.facts x).merged_prs : ℚ))) ≠ 0 :=
    ne_of_gt hMpos
  have em : normalize_map w (fun x => ((w.facts x).merged_prs : ℚ)) B <
      normalize_map w (fun x => ((w.facts x).merged_prs : ℚ)) A := by
    simp only [normalize_map, if_pos hA, if_pos hB, hMne, if_false]
    exact (div_lt_div_iff_of_pos_right hMpos).mpr (by exact_mod_cast hlt)
  unfold dashboardComposite
  rw [e1, e2, e3, e4, e5, e6, e7, e8]
  linarith [em]

/-- Author a of the C7 witness window: one more merged PR than author b. -/
def c7a : AuthorFacts :=
  { merged_prs := 2, reviews_done := 1, approvals := 0, issues_closed := 0, bugs_closed := 0,
    cross_reviews := 0, commits := 3, files_changed := 4, ci := some (1, 2),
    avg_first_review_secs := some 50, avg_merge_secs := none }

def c7b : AuthorFacts :=
  { merged_prs := 1, reviews_done := 1, approvals := 0, issues_closed := 0, bugs_closed := 0,
    cross_reviews := 0, commits := 3, files_changed := 4, ci := some (1, 2),
    avg_first_review_secs := some 50, avg_merge_secs := none }

def c7Window : ScoreWindow := ⟨["a", "b"], fun x => if x = "a" then c7a else c7b⟩

/-- C7 witness: the strict inequality at a concrete two-author window. -/
theorem C7_merged_pr_monotonicity_witness :
    dashboardComposite c7Window "b" < dashboardComposite c7Window "a" :=
  C7_merged_pr_monotonicity c7Window "a" "b" (by decide) (by decide) rfl rfl rfl rfl rfl rfl
    rfl rfl (by decide)

end GitSync
